import Mathlib

/-!
Shallow embedding of `examples/powerup_remote/remote.py`, a MicroPython driver
for the LEGO PowerUp remote running on a SPIKE Prime hub.

Conventions of the embedding:
* Byte strings (`bytes`, `adv_data`, frames) are `List Nat` with values < 256.
* MicroPython semantics are modelled where they differ from CPython:
  `struct.pack` does not range-check integer conversions (it stores the low
  byte), and `struct.unpack` raises when the buffer is too small but ignores
  trailing bytes.  The hub firmware is a unicode-enabled build
  (`MICROPY_PY_BUILTINS_STR_UNICODE` with the UTF-8 check on), so
  `str(b, "utf-8")` raises `UnicodeError` when the bytes fail the
  structural UTF-8 check of `py/unicode.c`.
* Python exceptions are modelled with `Except PyError`; code that cannot raise
  returns plain values.
* Calls into the BLE transport (`self.__ble.…`) and callback invocations are
  collected as an explicit effect list.
-/

deriving instance DecidableEq for Except

/-- Python runtime errors that the embedded code can raise. -/
inductive PyError
  | bufferTooSmall
  | typeError
  | indexError
  | valueError
  | unicodeError
deriving DecidableEq

/-- `ubluetooth.UUID`: either a 16-bit numeric identifier or a 128-bit
identifier held as 16 bytes in little-endian order. -/
inductive UUID
  | short (v : Nat)
  | long (bytes : List Nat)
deriving DecidableEq

/-- Result of `Decoder.decode_name` when it does not raise: either the
string literal `"parsing failed!"` of the source (the `parsingFailed`
constructor) or the decoded name, kept as its bytes. -/
inductive NameResult
  | parsingFailed
  | name (bytes : List Nat)
deriving DecidableEq

/-- The three-element list `[company_identifier, company_name, company_data]`
built by `Decoder.decode_manufacturer`. -/
structure ManData where
  company_identifier : String
  company_name : String
  company_data : List Nat
deriving DecidableEq

namespace Decoder

/-- Index advance of the scanning loop of `Decoder.__decode_field`:
`i += 1 + payload[i]`.  This is at least `i + 1` even when the length byte
is `0`, which is why the loop terminates. -/
def nextIndex (payload : List Nat) (i : Nat) : Nat :=
  i + 1 + payload.getD i 0

/-- One-step unfolding of the `while i + 1 < len(payload)` loop of
`Decoder.__decode_field`, with explicit fuel.  Each iteration advances the
index by at least 1 (`nextIndex`), so `payload.length` units of fuel always
suffice; `decodeFieldAux_congr` below proves the result is independent of
any sufficient fuel.  The slice `payload[i + 2 : i + payload[i] + 1]` is the
clamped `(payload.drop (i + 2)).take (payload.getD i 0 - 1)`. -/
def decodeFieldAux : Nat → List Nat → Nat → Nat → List (List Nat)
  | 0, _, _, _ => []
  | fuel + 1, payload, adv_type, i =>
    if i + 1 < payload.length then
      (if payload.getD (i + 1) 0 = adv_type then
        [(payload.drop (i + 2)).take (payload.getD i 0 - 1)]
      else []) ++ decodeFieldAux fuel payload adv_type (nextIndex payload i)
    else []

/-- `Decoder.__decode_field(payload, adv_type)`. -/
def decode_field (payload : List Nat) (adv_type : Nat) : List (List Nat) :=
  decodeFieldAux payload.length payload adv_type 0

/-- `self.__COMPANY_IDENTIFIER_CODES = {"0397": "LEGO System A/S"}`. -/
def COMPANY_IDENTIFIER_CODES : List (String × String) :=
  [("0397", "LEGO System A/S")]

/-- One lowercase hex digit, as produced by `ubinascii.hexlify`. -/
def hexDigit (n : Nat) : Char :=
  if n < 10 then Char.ofNat (48 + n) else Char.ofNat (87 + n)

/-- `ubinascii.hexlify(bs).decode()`: two lowercase hex digits per byte. -/
def hexlify (bs : List Nat) : String :=
  String.mk (bs.flatMap fun b => [hexDigit (b / 16 % 16), hexDigit (b % 16)])

/-- `struct.unpack('>h', b)[0]`: big-endian signed 16-bit integer read from
the first two bytes.  MicroPython raises if fewer than two bytes are
available and ignores any trailing bytes. -/
def unpack_be_h (b : List Nat) : Except PyError Int :=
  if 2 ≤ b.length then
    let u := b.getD 0 0 * 256 + b.getD 1 0
    .ok (if u < 32768 then (u : Int) else (u : Int) - 65536)
  else .error .bufferTooSmall

/-- `struct.unpack('<h', b)[0]`: little-endian signed 16-bit integer read
from the first two bytes (same MicroPython length behaviour). -/
def unpack_le_h (b : List Nat) : Except PyError Int :=
  if 2 ≤ b.length then
    let u := b.getD 0 0 + b.getD 1 0 * 256
    .ok (if u < 32768 then (u : Int) else (u : Int) - 65536)
  else .error .bufferTooSmall

/-- `struct.pack('<h', v)`: the 16-bit two's complement of `v`, low byte
first. -/
def pack_le_h (v : Int) : List Nat :=
  let u := (Int.emod v 65536).toNat
  [u % 256, u / 256 % 256]

/-- `Decoder.decode_manufacturer(payload)`: on an absent `0xFF` field the
empty list is returned (modelled as `none`); otherwise the first field's
leading two bytes are byte-swapped via `pack('<h', *unpack('>h', …))`,
hexlified, looked up in `COMPANY_IDENTIFIER_CODES` (default `"?"`), and the
rest of the field is kept as opaque payload. -/
def decode_manufacturer (payload : List Nat) : Except PyError (Option ManData) :=
  let n := decode_field payload 0xff
  if n.isEmpty then Except.ok none
  else
    (unpack_be_h (n.headD [])).map fun v =>
      let ci := hexlify (pack_le_h v)
      some { company_identifier := ci
             company_name := (COMPANY_IDENTIFIER_CODES.lookup ci).getD "?"
             company_data := (n.headD []).drop 2 }

/-- MicroPython's `utf8_check` of `py/unicode.c`, written out plainly: a
purely structural check.  `need` counts pending continuation bytes; a lead
byte `0xC0–0xDF` needs one, `0xE0–0xEF` two, `0xF0–0xF7` three; `0xF8` and
above, or a continuation byte (`0x80–0xBF`) outside a sequence, fail; a
sequence left unfinished at the end fails.  (Unlike RFC 3629 it accepts
overlong encodings and surrogates.) -/
def utf8Check : List Nat → Nat → Bool
  | [], need => need == 0
  | c :: rest, need =>
    if need ≠ 0 then
      if 0x80 ≤ c ∧ c ≤ 0xBF then utf8Check rest (need - 1) else false
    else if c ≤ 0x7F then utf8Check rest 0
    else if c ≤ 0xBF then false
    else if c ≤ 0xDF then utf8Check rest 1
    else if c ≤ 0xEF then utf8Check rest 2
    else if c ≤ 0xF7 then utf8Check rest 3
    else false

/-- `str(b, "utf-8")` on the hub's unicode-enabled MicroPython build:
raises `UnicodeError` when the bytes fail `utf8_check`, otherwise yields
the string (kept as its bytes). -/
def str_utf8 (b : List Nat) : Except PyError (List Nat) :=
  if utf8Check b 0 then .ok b else .error .unicodeError

/-- `Decoder.decode_name(payload)`:
`str(n[0], "utf-8") if n else "parsing failed!"`.  The placeholder guards
only the absent-field case; a present `0x09` field goes through
`str(…, "utf-8")`, which raises `UnicodeError` on invalid UTF-8. -/
def decode_name (payload : List Nat) : Except PyError NameResult :=
  let n := decode_field payload 0x09
  if n.isEmpty then .ok .parsingFailed
  else (str_utf8 (n.headD [])).map NameResult.name

/-- `ubluetooth.UUID(v)` applied to an integer: accepted only in the 16-bit
range, otherwise `ValueError`. -/
def uuidOfInt (v : Int) : Except PyError UUID :=
  if 0 ≤ v ∧ v ≤ 65535 then .ok (.short v.toNat) else .error .valueError

/-- `ubluetooth.UUID(b)` applied to a byte buffer: accepted only for exactly
16 bytes (interpreted little-endian), otherwise `ValueError`. -/
def uuidOfBytes (b : List Nat) : Except PyError UUID :=
  if b.length = 16 then .ok (.long b) else .error .valueError

/-- The tag `0x05` branch of `decode_services` runs
`ubluetooth.UUID(struct.unpack("<d", u)[0])`.  `'<d'` is the little-endian
64-bit float format: MicroPython raises when fewer than 8 bytes are
available, and when 8 bytes are present the unpacked value is a `float`,
which `ubluetooth.UUID` rejects with `TypeError`.  Either way no UUID is
ever produced, so the branch is the error it raises. -/
def uuidOfUnpackLeD (b : List Nat) : Except PyError UUID :=
  if b.length < 8 then .error .bufferTooSmall else .error .typeError

/-- `Decoder.decode_services(payload)`: the three `for` loops over the
`0x03`, `0x05` and `0x07` fields, appending to one list; a raised exception
propagates (short-circuits). -/
def decode_services (payload : List Nat) : Except PyError (List UUID) := do
  let s3 ← (decode_field payload 0x3).mapM fun u => do uuidOfInt (← unpack_le_h u)
  let s5 ← (decode_field payload 0x5).mapM fun u => uuidOfUnpackLeD u
  let s7 ← (decode_field payload 0x7).mapM fun u => uuidOfBytes u
  pure (s3 ++ s5 ++ s7)

end Decoder

namespace PowerUPHandler

/-- Calls issued by `PowerUPHandler` to the BLE transport, plus callback
invocations, recorded as observable effects. -/
inductive Call
  | gattcWrite (conn_handle : Nat) (value_handle : Option Nat) (data : List Nat)
  | gattcRead (conn_handle : Nat) (value_handle : Option Nat)
  | gattcDiscoverServices (conn_handle : Nat)
  | gapConnect (addr_type : Option Nat) (addr : List Nat)
  | invokeDisconnectedCallback (cb : Nat)
deriving DecidableEq

/-- The per-instance fields of `PowerUPHandler` that `__reset` clears:
cached scan data, the connection and value handles, and the registered
callback slots.  Callbacks are identified by opaque `Nat` tokens. -/
structure State where
  addr : Option (List Nat)
  addr_type : Option Nat
  adv_type : Option Nat
  services : Option (List UUID)
  man_data : Option (Option ManData)
  name : Option NameResult
  conn_handle : Option Nat
  value_handle : Option Nat
  scan_callback : Option Nat
  read_callback : Option Nat
  notify_callback : Option Nat
  connected_callback : Option Nat
  disconnected_callback : Option Nat
deriving DecidableEq

/-- `PowerUPHandler.__reset()`: every cached field and callback slot is set
to `None`. -/
def reset : State :=
  { addr := none, addr_type := none, adv_type := none, services := none
    man_data := none, name := none, conn_handle := none, value_handle := none
    scan_callback := none, read_callback := none, notify_callback := none
    connected_callback := none, disconnected_callback := none }

/-- `PowerUPHandler.__is_connected()`: `self.__conn_handle is not None`. -/
def is_connected (s : State) : Bool :=
  s.conn_handle.isSome

/-- Python truthiness of the optional `adv_value` argument (`if adv_value:`);
`None` and `0` are falsy. -/
def truthy : Option Nat → Bool
  | none => false
  | some v => v != 0

/-- `PowerUPHandler.write(data, adv_value)`: returns immediately when
`__is_connected()` is false (that is, when `conn_handle` is `None`);
otherwise issues `gattc_write` on `adv_value` if truthy, else on the cached
`value_handle` — which may still be `None` during discovery. -/
def write (s : State) (data : List Nat) (adv_value : Option Nat) : State × List Call :=
  match s.conn_handle with
  | none => (s, [])
  | some conn =>
    if truthy adv_value then (s, [.gattcWrite conn adv_value data])
    else (s, [.gattcWrite conn s.value_handle data])

/-- `PowerUPHandler.read(callback)`: returns immediately when not connected;
otherwise records the read callback and issues `gattc_read`. -/
def read (s : State) (callback : Nat) : State × List Call :=
  match s.conn_handle with
  | none => (s, [])
  | some conn =>
    ({ s with read_callback := some callback }, [.gattcRead conn s.value_handle])

/-- The `_IRQ_PERIPHERAL_CONNECT` branch of `PowerUPHandler.__irq`: caches
the connection handle and starts service discovery.  The value handle is
not yet known. -/
def irq_peripheral_connect (s : State) (conn_handle : Nat) : State × List Call :=
  ({ s with conn_handle := some conn_handle }, [.gattcDiscoverServices conn_handle])

/-- The `_IRQ_PERIPHERAL_DISCONNECT` branch of `PowerUPHandler.__irq`:
`self.__disconnected_callback()` is called unconditionally (a `TypeError`
when the slot holds `None`), and only afterwards, if the event's handle
equals the cached one, `__reset()` runs. -/
def irq_peripheral_disconnect (s : State) (conn_handle : Nat) :
    Except PyError (State × List Call) :=
  match s.disconnected_callback with
  | none => .error .typeError
  | some cb =>
    if s.conn_handle = some conn_handle then
      .ok (reset, [.invokeDisconnectedCallback cb])
    else
      .ok (s, [.invokeDisconnectedCallback cb])

/-- `self.__LEGO_SERVICE_UUID = ubluetooth.UUID("00001623-1212-EFDE-1623-785FEABCD123")`,
stored as its 16 bytes in little-endian order. -/
def LEGO_SERVICE_UUID : UUID :=
  .long [0x23, 0xD1, 0xBC, 0xEA, 0x5F, 0x78, 0x23, 0x16,
         0xDE, 0xEF, 0x12, 0x12, 0x23, 0x16, 0x00, 0x00]

end PowerUPHandler

/-- Actions on the hub's light matrix performed by the notification
callback of `PowerUPRemote`. -/
inductive HubAction
  | setPixel (row col brightness : Nat)
  | off
deriving DecidableEq

namespace PowerUPRemote

/-- `self.__POWERED_UP_REMOTE_ID = 66`. -/
def POWERED_UP_REMOTE_ID : Nat := 66

/-- `self.__COLOR_GREEN = 0x06`. -/
def COLOR_GREEN : Nat := 0x06

/-- `PowerUPRemote.__create_message(byte_array)`:
`struct.pack('%sb' % len(byte_array), *byte_array)`.  MicroPython's
`struct.pack` does not range-check the signed-byte conversion; it stores
the low byte of each value, so `0x81` and `0xFF` come out unchanged. -/
def create_message (byte_array : List Nat) : List Nat :=
  byte_array.map (fun v => v % 256)

/-- The ten literal button frames captured in `PowerUPRemote.__init__`. -/
def BUTTON_A_PLUS : List Nat := create_message [0x05, 0x00, 0x45, 0x00, 0x01]

def BUTTON_A_RED : List Nat := create_message [0x05, 0x00, 0x45, 0x00, 0x7F]

def BUTTON_A_MINUS : List Nat := create_message [0x05, 0x00, 0x45, 0x00, 0xFF]

def BUTTON_A_RELEASED : List Nat := create_message [0x05, 0x00, 0x45, 0x00, 0x00]

def BUTTON_B_PLUS : List Nat := create_message [0x05, 0x00, 0x45, 0x01, 0x01]

def BUTTON_B_RED : List Nat := create_message [0x05, 0x00, 0x45, 0x01, 0x7F]

def BUTTON_B_MINUS : List Nat := create_message [0x05, 0x00, 0x45, 0x01, 0xFF]

def BUTTON_B_RELEASED : List Nat := create_message [0x05, 0x00, 0x45, 0x01, 0x00]

def BUTTON_MIDDLE_GREEN : List Nat := create_message [0x05, 0x00, 0x08, 0x02, 0x01]

def BUTTON_MIDDLE_RELEASED : List Nat := create_message [0x05, 0x00, 0x08, 0x02, 0x00]

/-- All ten known button-frame literals. -/
def knownButtonFrames : List (List Nat) :=
  [BUTTON_A_PLUS, BUTTON_A_RED, BUTTON_A_MINUS, BUTTON_A_RELEASED,
   BUTTON_B_PLUS, BUTTON_B_RED, BUTTON_B_MINUS, BUTTON_B_RELEASED,
   BUTTON_MIDDLE_GREEN, BUTTON_MIDDLE_RELEASED]

/-- The seven literals that `__notification_callback` actually compares
against, in source order; the three released-button literals are absent. -/
def checkedButtonFrames : List (List Nat) :=
  [BUTTON_A_PLUS, BUTTON_A_RED, BUTTON_A_MINUS,
   BUTTON_B_PLUS, BUTTON_B_RED, BUTTON_B_MINUS, BUTTON_MIDDLE_GREEN]

/-- The frame built by `PowerUPRemote.__set_remote_color(color_byte)`. -/
def set_remote_color_frame (color_byte : Nat) : List Nat :=
  create_message [0x08, 0x00, 0x81, 0x34, 0x11, 0x51, 0x00, color_byte]

/-- `PowerUPRemote.__notification_callback(data)`: the `if/elif` chain over
seven button literals; everything else runs `light_matrix.off()`. -/
def notification_callback (data : List Nat) : HubAction :=
  if data = BUTTON_A_PLUS then .setPixel 0 0 100
  else if data = BUTTON_A_RED then .setPixel 0 1 100
  else if data = BUTTON_A_MINUS then .setPixel 0 2 100
  else if data = BUTTON_B_PLUS then .setPixel 0 3 100
  else if data = BUTTON_B_RED then .setPixel 0 4 100
  else if data = BUTTON_B_MINUS then .setPixel 1 0 100
  else if data = BUTTON_MIDDLE_GREEN then .setPixel 2 0 100
  else .off

/-- `PowerUPRemote.__scan_callback(addr_type, addr, man_data)`: the guard
`if addr and man_data[2][1] == self.__POWERED_UP_REMOTE_ID` short-circuits
on a falsy `addr`, but with a truthy `addr` it indexes `man_data[2]` and
then `[1]` before comparing — an `IndexError` when `man_data` is the empty
list or its payload is shorter than two bytes. -/
def scan_callback (addr_type : Option Nat) (addr : Option (List Nat))
    (man_data : Option ManData) : Except PyError (List PowerUPHandler.Call) :=
  match addr with
  | none => .ok []
  | some a =>
    match man_data with
    | none => .error .indexError
    | some m =>
      if 1 < m.company_data.length then
        if m.company_data.getD 1 0 = POWERED_UP_REMOTE_ID then
          .ok [.gapConnect addr_type a]
        else .ok []
      else .error .indexError

end PowerUPRemote

/-- A well-formed advertising record as the wire format describes it:
a type tag and a payload; its encoding is
`(payload.length + 1) :: tag :: payload`. -/
structure AdvRecord where
  tag : Nat
  payload : List Nat
deriving DecidableEq

/-- Encoding of one advertising record: length byte, tag byte, payload. -/
def encodeRecord (r : AdvRecord) : List Nat :=
  (r.payload.length + 1) :: r.tag :: r.payload

/-- Encoding of a sequence of advertising records. -/
def encodeRecords (rs : List AdvRecord) : List Nat :=
  (rs.map encodeRecord).flatten

/-- Whether a continuation byte of a UTF-8 sequence is in `0x80–0xBF`. -/
def utf8ContByte (b : Nat) : Bool :=
  0x80 ≤ b && b ≤ 0xBF

/-- Standard UTF-8 validity of a byte sequence (RFC 3629 table), used to
state what a "name field that fails to decode as UTF-8" means.  This is a
spec-side definition; the source never validates. -/
def utf8Valid : List Nat → Bool
  | [] => true
  | b :: rest =>
    if b ≤ 0x7F then utf8Valid rest
    else if 0xC2 ≤ b && b ≤ 0xDF then
      match rest with
      | c1 :: r => utf8ContByte c1 && utf8Valid r
      | [] => false
    else if b = 0xE0 then
      match rest with
      | c1 :: c2 :: r => (0xA0 ≤ c1 && c1 ≤ 0xBF) && utf8ContByte c2 && utf8Valid r
      | _ => false
    else if (0xE1 ≤ b && b ≤ 0xEC) || b = 0xEE || b = 0xEF then
      match rest with
      | c1 :: c2 :: r => utf8ContByte c1 && utf8ContByte c2 && utf8Valid r
      | _ => false
    else if b = 0xED then
      match rest with
      | c1 :: c2 :: r => (0x80 ≤ c1 && c1 ≤ 0x9F) && utf8ContByte c2 && utf8Valid r
      | _ => false
    else if b = 0xF0 then
      match rest with
      | c1 :: c2 :: c3 :: r =>
        (0x90 ≤ c1 && c1 ≤ 0xBF) && utf8ContByte c2 && utf8ContByte c3 && utf8Valid r
      | _ => false
    else if 0xF1 ≤ b && b ≤ 0xF3 then
      match rest with
      | c1 :: c2 :: c3 :: r =>
        utf8ContByte c1 && utf8ContByte c2 && utf8ContByte c3 && utf8Valid r
      | _ => false
    else if b = 0xF4 then
      match rest with
      | c1 :: c2 :: c3 :: r =>
        (0x80 ≤ c1 && c1 ≤ 0x8F) && utf8ContByte c2 && utf8ContByte c3 && utf8Valid r
      | _ => false
    else false

/-- The advertisement buffer of the failing input for the manufacturer-data
crash: a single tag `0x07` record carrying the 128-bit LEGO service
identifier and nothing else (in particular no `0xFF` record). -/
def legoServiceOnlyAdv : List Nat :=
  0x11 :: 0x07 :: [0x23, 0xD1, 0xBC, 0xEA, 0x5F, 0x78, 0x23, 0x16,
    0xDE, 0xEF, 0x12, 0x12, 0x23, 0x16, 0x00, 0x00]

theorem getD_append_shift (l₁ l₂ : List Nat) (n d : Nat) :
    (l₁ ++ l₂).getD (l₁.length + n) d = l₂.getD n d := by
  induction l₁ with
  | nil => simp
  | cons a t ih =>
    rw [List.cons_append, List.length_cons]
    have h : t.length + 1 + n = (t.length + n) + 1 := by omega
    rw [h, List.getD_cons_succ, ih]

theorem drop_append_shift (l₁ l₂ : List Nat) (n : Nat) :
    (l₁ ++ l₂).drop (l₁.length + n) = l₂.drop n := by
  induction l₁ with
  | nil => simp
  | cons a t ih =>
    rw [List.cons_append, List.length_cons]
    have h : t.length + 1 + n = (t.length + n) + 1 := by omega
    rw [h, List.drop_succ_cons, ih]

theorem take_length_append (l₁ l₂ : List Nat) : (l₁ ++ l₂).take l₁.length = l₁ := by
  induction l₁ with
  | nil => rfl
  | cons a t ih => simp [ih]

namespace Decoder

/-- The result of the scanning loop does not depend on the fuel, as long as
the fuel covers the distance from the current index to the end of the
buffer.  This is the termination argument of `__decode_field`: the index
advances by at least one per iteration. -/
theorem decodeFieldAux_congr :
    ∀ (f g i : Nat) (payload : List Nat) (t : Nat),
      payload.length ≤ f + i → payload.length ≤ g + i →
      decodeFieldAux f payload t i = decodeFieldAux g payload t i := by
  intro f
  induction f with
  | zero =>
    intro g i p t hf hg
    cases g with
    | zero => rfl
    | succ g₁ =>
      have hc : ¬ i + 1 < p.length := by omega
      simp [decodeFieldAux, hc]
  | succ f₁ ih =>
    intro g i p t hf hg
    cases g with
    | zero =>
      have hc : ¬ i + 1 < p.length := by omega
      simp [decodeFieldAux, hc]
    | succ g₁ =>
      simp only [decodeFieldAux]
      by_cases hc : i + 1 < p.length
      · rw [if_pos hc, if_pos hc,
          ih g₁ (nextIndex p i) p t (by simp only [nextIndex]; omega)
            (by simp only [nextIndex]; omega)]
      · rw [if_neg hc, if_neg hc]

/-- Scanning `pre ++ rest` from an index past `pre` is scanning `rest`:
the loop only ever reads the buffer at or after the current index. -/
theorem decodeFieldAux_shift :
    ∀ (f : Nat) (pre rest : List Nat) (t i : Nat),
      decodeFieldAux f (pre ++ rest) t (pre.length + i) = decodeFieldAux f rest t i := by
  intro f
  induction f with
  | zero => intro pre rest t i; rfl
  | succ f₁ ih =>
    intro pre rest t i
    simp only [decodeFieldAux]
    have hlen : (pre ++ rest).length = pre.length + rest.length := List.length_append _ _
    have hcond : (pre.length + i + 1 < (pre ++ rest).length) ↔ (i + 1 < rest.length) := by
      rw [hlen]; omega
    by_cases hc : i + 1 < rest.length
    · rw [if_pos (hcond.mpr hc), if_pos hc]
      have e1 : pre.length + i + 1 = pre.length + (i + 1) := by omega
      have e2 : pre.length + i + 2 = pre.length + (i + 2) := by omega
      rw [e1, getD_append_shift, e2, drop_append_shift]
      have e3 : nextIndex (pre ++ rest) (pre.length + i) = pre.length + nextIndex rest i := by
        simp only [nextIndex]
        rw [getD_append_shift]
        omega
      rw [getD_append_shift, e3, ih]
    · rw [if_neg (fun hx => hc (hcond.mp hx)), if_neg hc]

/-- One well-formed record at the head of the buffer yields its payload
exactly when its tag matches, and the loop continues right after it. -/
theorem decodeFieldAux_record (f : Nat) (r : AdvRecord) (rest : List Nat) (t : Nat) :
    decodeFieldAux (f + 1) (encodeRecord r ++ rest) t 0 =
      (if r.tag = t then [r.payload] else []) ++ decodeFieldAux f rest t 0 := by
  have hshape : encodeRecord r ++ rest =
      (r.payload.length + 1) :: r.tag :: (r.payload ++ rest) := by
    simp [encodeRecord]
  simp only [decodeFieldAux]
  have hlen : (encodeRecord r ++ rest).length = r.payload.length + 2 + rest.length := by
    simp [encodeRecord]; omega
  have hc : 0 + 1 < (encodeRecord r ++ rest).length := by omega
  rw [if_pos hc]
  have hg1 : (encodeRecord r ++ rest).getD (0 + 1) 0 = r.tag := by
    rw [hshape]; rfl
  have hg0 : (encodeRecord r ++ rest).getD 0 0 = r.payload.length + 1 := by
    rw [hshape]; rfl
  have hdrop : (encodeRecord r ++ rest).drop (0 + 2) = r.payload ++ rest := by
    rw [hshape]; rfl
  have hslice : ((encodeRecord r ++ rest).drop (0 + 2)).take
      ((encodeRecord r ++ rest).getD 0 0 - 1) = r.payload := by
    rw [hdrop, hg0]
    have h : r.payload.length + 1 - 1 = r.payload.length := by omega
    rw [h, take_length_append]
  have hnext : nextIndex (encodeRecord r ++ rest) 0 = (encodeRecord r).length + 0 := by
    simp only [nextIndex, hg0]
    simp only [encodeRecord, List.length_cons]
    omega
  rw [hg1, hslice, hnext, decodeFieldAux_shift]

/-- Decoding a buffer made of well-formed records followed by an arbitrary
suffix: the matching payloads of the records, then whatever the suffix
decodes to on its own. -/
theorem decode_field_append (rs : List AdvRecord) :
    ∀ (suffix : List Nat) (t : Nat),
      decode_field (encodeRecords rs ++ suffix) t =
        (rs.filter (fun r => r.tag == t)).map AdvRecord.payload ++ decode_field suffix t := by
  induction rs with
  | nil => intro suffix t; simp [encodeRecords]
  | cons r rs ih =>
    intro suffix t
    have hsplit : encodeRecords (r :: rs) ++ suffix =
        encodeRecord r ++ (encodeRecords rs ++ suffix) := by
      simp [encodeRecords]
    rw [hsplit]
    unfold decode_field
    have hlen : (encodeRecord r ++ (encodeRecords rs ++ suffix)).length =
        (r.payload.length + 1 + (encodeRecords rs ++ suffix).length) + 1 := by
      simp [encodeRecord]; omega
    rw [hlen, decodeFieldAux_record]
    have hinner : decodeFieldAux (r.payload.length + 1 + (encodeRecords rs ++ suffix).length)
        (encodeRecords rs ++ suffix) t 0 =
        decodeFieldAux (encodeRecords rs ++ suffix).length (encodeRecords rs ++ suffix) t 0 := by
      apply decodeFieldAux_congr <;> omega
    rw [hinner]
    have ih2 := ih suffix t
    unfold decode_field at ih2
    rw [ih2]
    by_cases hrt : r.tag = t
    · simp [List.filter_cons, hrt]
    · have hb : (r.tag == t) = false := by simp [hrt]
      simp [List.filter_cons, hrt, hb]

/-- Every slice the scanning loop returns is a contiguous part of the
buffer: the clamped Python slice never reads out of bounds. -/
theorem decodeFieldAux_mem_bounds :
    ∀ (f : Nat) (payload : List Nat) (t i : Nat) (r : List Nat),
      r ∈ decodeFieldAux f payload t i → ∃ u v, u ++ r ++ v = payload := by
  intro f
  induction f with
  | zero => intro p t i r h; simp [decodeFieldAux] at h
  | succ f₁ ih =>
    intro p t i r h
    simp only [decodeFieldAux] at h
    by_cases hc : i + 1 < p.length
    · rw [if_pos hc] at h
      rcases List.mem_append.mp h with h1 | h2
      · by_cases ht : p.getD (i + 1) 0 = t
        · rw [if_pos ht] at h1
          have hr : r = (p.drop (i + 2)).take (p.getD i 0 - 1) := by
            simpa using h1
          subst hr
          refine ⟨p.take (i + 2), (p.drop (i + 2)).drop (p.getD i 0 - 1), ?_⟩
          rw [List.append_assoc, List.take_append_drop, List.take_append_drop]
        · rw [if_neg ht] at h1
          simp at h1
      · exact ih p t (nextIndex p i) r h2
    · rw [if_neg hc] at h
      simp at h

end Decoder

/-- C1, counterexample: in the state reached right after the
peripheral-connect event (connection handle cached, value handle still
`None` — the DiscoveringServices phase, not Ready), `write` does issue a
transport call, contradicting the claim that write is a silent no-op in
every non-Ready state. -/
theorem c1_discovery_write_issues_transport_call :
    (PowerUPHandler.irq_peripheral_connect PowerUPHandler.reset 7).1.value_handle = none ∧
    (PowerUPHandler.write (PowerUPHandler.irq_peripheral_connect PowerUPHandler.reset 7).1
        (PowerUPRemote.set_remote_color_frame PowerUPRemote.COLOR_GREEN) none).2 =
      [.gattcWrite 7 none [0x08, 0x00, 0x81, 0x34, 0x11, 0x51, 0x00, 0x06]] := by
  decide

/-- C1, amended: `write` and `read` are silent no-ops (state unchanged, no
transport call) exactly when no connection handle is held — Idle, Scanning,
and Connecting before the connect event.  Once the connect event caches a
handle, even before the value handle is captured, both operations issue
transport calls. -/
theorem c1_write_read_noop_without_connection (s : PowerUPHandler.State)
    (data : List Nat) (adv_value : Option Nat) (cb : Nat)
    (h : s.conn_handle = none) :
    PowerUPHandler.write s data adv_value = (s, []) ∧
    PowerUPHandler.read s cb = (s, []) := by
  constructor
  · simp only [PowerUPHandler.write, h]
  · simp only [PowerUPHandler.read, h]

/-- C1, witness: the amended theorem applied to the freshly reset state. -/
theorem c1_write_read_noop_witness :
    PowerUPHandler.write PowerUPHandler.reset [1, 2] none = (PowerUPHandler.reset, []) ∧
    PowerUPHandler.read PowerUPHandler.reset 3 = (PowerUPHandler.reset, []) := by
  have h := c1_write_read_noop_without_connection PowerUPHandler.reset [1, 2] none 3 rfl
  exact ⟨h.1, h.2⟩

/-- C2 (confirmed): decoding a buffer of well-formed advertising records
followed by a trailing length byte with no bytes after it terminates
normally and returns exactly the payloads of the complete records whose
tag matches — the truncated trailing byte contributes nothing and raises
nothing. -/
theorem c2_truncated_buffer_decodes_complete_fields (rs : List AdvRecord) (t b : Nat) :
    Decoder.decode_field (encodeRecords rs ++ [b]) t =
      (rs.filter (fun r => r.tag == t)).map AdvRecord.payload := by
  rw [Decoder.decode_field_append rs [b] t]
  have h : Decoder.decode_field [b] t = [] := rfl
  rw [h, List.append_nil]

/-- C3, counterexample: in an Idle state (no connection handle) with a
disconnect callback registered, a peripheral-disconnect event is not a
no-op — the callback is invoked, contradicting the claim that no disconnect
callback is invoked while Idle. -/
theorem c3_idle_disconnect_invokes_callback :
    ({ PowerUPHandler.reset with disconnected_callback := some 1 }
        : PowerUPHandler.State).conn_handle = none ∧
    PowerUPHandler.irq_peripheral_disconnect
        { PowerUPHandler.reset with disconnected_callback := some 1 } 0 =
      .ok ({ PowerUPHandler.reset with disconnected_callback := some 1 },
           [.invokeDisconnectedCallback 1]) := by
  decide

/-- C3, amended: the disconnect branch invokes the registered callback
unconditionally.  With a callback registered and no cached connection
handle, it fires once and the state is untouched (the event handle cannot
equal the absent cached one, so no reset); with a callback registered and a
matching cached handle, it fires exactly once and all cached state resets
to Idle.  (With no callback registered the branch raises `TypeError`.) -/
theorem c3_disconnect_event_behaviour (s : PowerUPHandler.State) (cb h : Nat)
    (hcb : s.disconnected_callback = some cb) :
    (s.conn_handle = none →
      PowerUPHandler.irq_peripheral_disconnect s h =
        .ok (s, [.invokeDisconnectedCallback cb])) ∧
    (s.conn_handle = some h →
      PowerUPHandler.irq_peripheral_disconnect s h =
        .ok (PowerUPHandler.reset, [.invokeDisconnectedCallback cb])) := by
  constructor
  · intro hc
    simp [PowerUPHandler.irq_peripheral_disconnect, hcb, hc]
  · intro hc
    simp [PowerUPHandler.irq_peripheral_disconnect, hcb, hc]

/-- C3, witness: the amended theorem applied to an Idle state with a
registered callback and to a connected (Ready) state with a matching
handle. -/
theorem c3_disconnect_event_witness :
    PowerUPHandler.irq_peripheral_disconnect
        { PowerUPHandler.reset with disconnected_callback := some 2 } 4 =
      .ok ({ PowerUPHandler.reset with disconnected_callback := some 2 },
           [.invokeDisconnectedCallback 2]) ∧
    PowerUPHandler.irq_peripheral_disconnect
        { PowerUPHandler.reset with
            conn_handle := some 5, value_handle := some 9,
            disconnected_callback := some 2 } 5 =
      .ok (PowerUPHandler.reset, [.invokeDisconnectedCallback 2]) := by
  constructor
  · exact (c3_disconnect_event_behaviour
      { PowerUPHandler.reset with disconnected_callback := some 2 } 2 4 rfl).1 rfl
  · exact (c3_disconnect_event_behaviour
      { PowerUPHandler.reset with
          conn_handle := some 5, value_handle := some 9,
          disconnected_callback := some 2 } 2 5 rfl).2 rfl

/-- C4, counterexample: the Button A Released frame is one of the ten known
literals, yet the dispatcher clears the display for it — so it is not true
that only frames outside the known set clear the display. -/
theorem c4_released_frame_known_but_clears :
    PowerUPRemote.BUTTON_A_RELEASED ∈ PowerUPRemote.knownButtonFrames ∧
    PowerUPRemote.notification_callback PowerUPRemote.BUTTON_A_RELEASED = .off := by
  decide

/-- C4, amended: the dispatcher compares an inbound frame against only the
seven press-frame literals; the Button A Plus literal maps to pixel (0,0)
at brightness 100, and every frame outside those seven — including the
three known released-button literals — clears the entire display. -/
theorem c4_dispatch_press_frames_only (d : List Nat)
    (hd : d ∉ PowerUPRemote.checkedButtonFrames) :
    PowerUPRemote.notification_callback PowerUPRemote.BUTTON_A_PLUS = .setPixel 0 0 100 ∧
    PowerUPRemote.notification_callback d = .off := by
  constructor
  · decide
  · simp only [PowerUPRemote.checkedButtonFrames, List.mem_cons, List.mem_singleton,
      not_or] at hd
    obtain ⟨h1, h2, h3, h4, h5, h6, h7⟩ := hd
    simp [PowerUPRemote.notification_callback, h1, h2, h3, h4, h5, h6, h7]

/-- C4, witness: the amended theorem applied to the Button Middle Released
literal, which is not among the seven checked frames. -/
theorem c4_dispatch_witness :
    PowerUPRemote.notification_callback PowerUPRemote.BUTTON_A_PLUS = .setPixel 0 0 100 ∧
    PowerUPRemote.notification_callback PowerUPRemote.BUTTON_MIDDLE_RELEASED = .off := by
  have h := c4_dispatch_press_frames_only PowerUPRemote.BUTTON_MIDDLE_RELEASED (by decide)
  exact ⟨h.1, h.2⟩

/-- C5 (confirmed): building the color-set command with the green color
byte `0x06` yields exactly `0x08 0x00 0x81 0x34 0x11 0x51 0x00 0x06`; the
signed-byte pack of MicroPython stores `0x81` unchanged. -/
theorem c5_color_set_frame_bytes :
    PowerUPRemote.set_remote_color_frame PowerUPRemote.COLOR_GREEN =
      [0x08, 0x00, 0x81, 0x34, 0x11, 0x51, 0x00, 0x06] := by
  decide

/-- C6 (confirmed): when the first `0xFF` manufacturer field starts with the
company-id bytes `0x97 0x03` (little-endian on the air), decode_manufacturer
returns the big-endian hex identifier "0397", the company name looked up
from the static table, and the remaining field bytes as opaque payload, so
the device-type byte sits at payload offset 1. -/
theorem c6_decode_manufacturer_lego (p : List Nat) (tl : List Nat) (rest : List (List Nat))
    (h : Decoder.decode_field p 0xff = (0x97 :: 0x03 :: tl) :: rest) :
    Decoder.decode_manufacturer p =
      .ok (some { company_identifier := "0397", company_name := "LEGO System A/S",
                  company_data := tl }) := by
  simp only [Decoder.decode_manufacturer, h]
  have hne : (((0x97 : Nat) :: 0x03 :: tl) :: rest).isEmpty = false := rfl
  rw [hne]
  simp only [Bool.false_eq_true, if_false, List.headD_cons]
  have h1 : Decoder.unpack_be_h (0x97 :: 0x03 :: tl) = Except.ok (-26877) := by
    have hlen : 2 ≤ ((0x97 : Nat) :: 0x03 :: tl).length := by
      simp [List.length_cons]
    simp only [Decoder.unpack_be_h, if_pos hlen]
    norm_num [List.getD_cons_zero, List.getD_cons_succ]
  rw [h1]
  simp only [Except.map]
  have h2 : Decoder.hexlify (Decoder.pack_le_h (-26877)) = "0397" := by decide
  rw [h2]
  have h3 : (Decoder.COMPANY_IDENTIFIER_CODES.lookup "0397").getD "?" = "LEGO System A/S" := by
    decide
  rw [h3]
  simp [List.drop_succ_cons]

/-- C6, witness: a concrete buffer with one well-formed `0xFF` record whose
payload is `97 03 00 42`; the device-type byte 66 = `0x42` is at payload
offset 1 of the returned opaque data. -/
theorem c6_decode_manufacturer_witness :
    Decoder.decode_manufacturer [0x05, 0xff, 0x97, 0x03, 0x00, 0x42] =
      .ok (some { company_identifier := "0397", company_name := "LEGO System A/S",
                  company_data := [0x00, 0x42] }) ∧
    ([0x00, 0x42] : List Nat).getD 1 0 = PowerUPRemote.POWERED_UP_REMOTE_ID := by
  constructor
  · exact c6_decode_manufacturer_lego [0x05, 0xff, 0x97, 0x03, 0x00, 0x42]
      [0x00, 0x42] [] (by decide)
  · decide

/-- C7 (code bug): a well-formed 4-byte tag `0x05` payload does not yield a
32-bit service identifier — the source unpacks it with the `'<d'` format
(an 8-byte little-endian float), which fails on 4 bytes, and even an 8-byte
payload unpacks to a float that `ubluetooth.UUID` rejects. -/
theorem c7_tag5_service_field_never_decodes :
    Decoder.decode_services [0x05, 0x05, 0x23, 0x16, 0x00, 0x00] =
      .error .bufferTooSmall ∧
    Decoder.decode_services [0x09, 0x05, 1, 2, 3, 4, 5, 6, 7, 8] =
      .error .typeError := by
  decide

/-- C8 (code bug): the byte `0xFF` alone fails to decode as UTF-8, yet
`decode_name` on a buffer whose tag-`0x09` field is exactly that byte
raises `UnicodeError` instead of returning a placeholder or error value —
the `"parsing failed!"` fallback guards only the absent-field case (third
conjunct), so this decoding failure is fatal to the caller. -/
theorem c8_invalid_utf8_name_raises :
    utf8Valid [0xFF] = false ∧
    Decoder.decode_name [0x02, 0x09, 0xFF] = .error .unicodeError ∧
    Decoder.decode_name [] = .ok .parsingFailed := by
  decide

/-- C9 (code bug): an advertisement carrying the LEGO 128-bit service
identifier but no `0xFF` manufacturer record matches the scan filter,
`decode_manufacturer` returns the empty result, and the controller's
scan-completion callback then evaluates `man_data[2][1]` on that empty
result and raises `IndexError` instead of treating it as "no manufacturer
data". -/
theorem c9_scan_without_manufacturer_field_raises :
    Decoder.decode_services legoServiceOnlyAdv =
      .ok [PowerUPHandler.LEGO_SERVICE_UUID] ∧
    Decoder.decode_manufacturer legoServiceOnlyAdv = .ok none ∧
    PowerUPRemote.scan_callback (some 0) (some [1, 2, 3, 4, 5, 6]) none =
      .error .indexError := by
  decide

/-- C10 (confirmed): the record-scanning loop of `__decode_field`
terminates and stays in bounds — (1) each iteration advances the index by
at least one even when the length byte is 0; (2) the loop has finished
within `payload.length` iterations, so any extra fuel leaves the result
unchanged; (3) every returned payload slice is a contiguous piece of the
buffer, a declared length running past the end yielding only the available
prefix. -/
theorem c10_decode_field_terminates_in_bounds :
    (∀ (payload : List Nat) (i : Nat), i < Decoder.nextIndex payload i) ∧
    (∀ (payload : List Nat) (t k : Nat),
        Decoder.decodeFieldAux (payload.length + k) payload t 0 =
          Decoder.decode_field payload t) ∧
    (∀ (payload : List Nat) (t : Nat) (r : List Nat),
        r ∈ Decoder.decode_field payload t → ∃ u v, u ++ r ++ v = payload) := by
  refine ⟨?_, ?_, ?_⟩
  · intro p i
    simp only [Decoder.nextIndex]
    omega
  · intro p t k
    exact Decoder.decodeFieldAux_congr (p.length + k) p.length 0 p t (by omega) (by omega)
  · intro p t r h
    exact Decoder.decodeFieldAux_mem_bounds p.length p t 0 r h

/-- C10, witness: a record whose declared length (2) runs exactly to the
buffer end; its payload slice `[5]` is a contiguous piece of the buffer. -/
theorem c10_decode_field_witness :
    ([5] ∈ Decoder.decode_field [2, 9, 5] 9) ∧ (∃ u v, u ++ [5] ++ v = [2, 9, 5]) := by
  refine ⟨by decide, ?_⟩
  exact c10_decode_field_terminates_in_bounds.2.2 [2, 9, 5] 9 [5] (by decide)
